import Mathlib

/-
Verification of the note-encryption subsystem of the notes-app repository.

The development shallowly embeds the parts of the code that the properties
below are about:

  - the Fernet-based content cipher as used by
    notes/management/commands/migrate_note_encryption.py
    (derive_key, the per-user salt expression, encrypt_new_format,
    decrypt_old_format, and the per-note migration loop of handle);
  - the note views notes/views.py (note_create, note_edit, note_unlock)
    together with the Note and NoteVersion records of notes/models.py and
    the per-session unlock slot written by note_unlock.

Cryptographic primitives are embedded symbolically: PBKDF2 is a
deterministic, collision-free key-derivation function, so a derived key is
modelled as the pair of its inputs; a Fernet token is modelled as a value
that records the key it was produced under and its plaintext payload, and
Fernet decryption succeeds exactly on tokens produced under the same key
(the ideal authenticated-encryption model: forging or opening a token
under a different key fails, which Fernet guarantees through its HMAC).
Everything else (salt computation, control flow, state updates, counters)
is translated directly from the Python source.
-/

namespace NotesApp

/-- Symbolic key material. derive_key in the source runs PBKDF2-HMAC-SHA256
(100000 iterations, 32 bytes) over the password and salt and then
urlsafe-base64-encodes the result; that computation is deterministic and
injective in the ideal model, so the key is embedded as the pair of its two
inputs. -/
structure Key where
  password : String
  salt : String
deriving DecidableEq

/-- Embedding of Command.derive_key (migrate_note_encryption.py lines 26-35):
deterministic key derivation from password and salt. -/
def derive_key (password : String) (salt : String) : Key :=
  { password := password, salt := salt }

/-- Embedding of the per-user salt expression
str(note.user.id).encode() left-justified to 16 bytes with the zero digit and truncated to 16
(migrate_note_encryption.py lines 40 and 54): the decimal digits of the
user id, right-padded with the character 0 to 16 bytes, truncated to 16. -/
def salt_for (uid : Nat) : String :=
  (Nat.repr uid ++ String.mk (List.replicate 16 '0')).take 16

/-- Stored text value, as held in the title and content fields of a note.
A Python string is either ordinary text (plain) or the serialization of a
Fernet token; in the ideal cipher model a token records the key it was
produced under and its plaintext payload.  The b64std flag records one
further attribute of the serialized token string that the code inspects:
whether the string decodes under the STANDARD (non-urlsafe) base64
alphabet.  Fernet serializes with the urlsafe alphabet over random IV and
HMAC bytes, so this attribute varies per token and is kept abstract. -/
inductive Txt where
  | plain (s : String)
  | token (key : Key) (payload : String) (b64std : Bool)
deriving DecidableEq

/-- Python truthiness of a stored text value: the empty string is falsy,
every other string (in particular every serialized token) is truthy. -/
def Txt.truthy : Txt → Bool
  | .plain s => !(s == "")
  | .token _ _ _ => true

/-- Ideal-model Fernet encryption: fernet.encrypt produces a fresh token
under the given key holding the given payload. -/
def fernetEncrypt (key : Key) (payload : String) : Txt :=
  .token key payload true

/-- Ideal-model Fernet decryption: fernet.decrypt opens a token exactly
when it was produced under the same key, returning its payload; on a
non-token string or a token under a different key it raises, which the
embedding renders as none. -/
def fernetDecrypt (key : Key) : Txt → Option String
  | .plain _ => none
  | .token k payload _ => if k = key then some payload else none

/-- Encryption of a plaintext for a user, as performed by
encrypt_new_format: derive the key from the password and the per-user
salt, then Fernet-encrypt the UTF-8 bytes of the plaintext. -/
def encrypt (t : String) (p : String) (u : Nat) : Txt :=
  fernetEncrypt (derive_key p (salt_for u)) t

/-- Decryption of a stored value for a user, as performed by
decrypt_old_format on each field: derive the same key and attempt to open
the token; any failure is caught and normalized to none. -/
def decrypt (c : Txt) (p : String) (u : Nat) : Option String :=
  fernetDecrypt (derive_key p (salt_for u)) c

/-- Record of a stored note, restricted to the fields the embedded
operations read or write (notes/models.py lines 71-95: user, tags, folder
and timestamps are handled by excluded collaborators and carried by the
surrounding state, not by these operations). -/
structure Note where
  id : Nat
  title : Txt
  content : Txt
  note_type : String
  is_locked : Bool
  salt : String
deriving DecidableEq

/-- Character of the standard base64 alphabet (without padding). -/
def isStdB64Char (c : Char) : Bool :=
  c.isAlphanum || c == '+' || c == '/'

/-- Success predicate of base64.b64decode(s.encode()) with the default
validate=False, as called by the migration heuristic
(migrate_note_encryption.py line 116): characters outside the standard
alphabet and the padding character are discarded; decoding then succeeds
when the data characters reach a four-character boundary, using padding
characters where the data length stops two or three short of it. -/
def pyStdB64Ok (s : String) : Bool :=
  let kept := s.toList.filter (fun c => isStdB64Char c || c == '=')
  let data := kept.takeWhile (fun c => !(c == '='))
  let pads := ((kept.drop data.length).takeWhile (fun c => c == '=')).length
  (data.length % 4 == 0)
    || (data.length % 4 == 2 && decide (2 ≤ pads))
    || (data.length % 4 == 3 && decide (1 ≤ pads))

/-- The looks-encrypted heuristic applied to a stored title
(migrate_note_encryption.py lines 111-121): try base64.b64decode on the
stored string; success means the title is taken to be ciphertext.  On a
plain string the outcome is computed from the string itself; on a token
the outcome is the recorded attribute of its serialization. -/
def titleLooksB64 : Txt → Bool
  | .plain s => pyStdB64Ok s
  | .token _ _ f => f

/-- Embedding of Command.decrypt_old_format (migrate_note_encryption.py
lines 37-50): derive the per-user key and attempt to Fernet-decrypt both
the title and the content; on success return both plaintexts, and on any
exception return None. -/
def decrypt_old_format (uid : Nat) (password : String) (note : Note) :
    Option (String × String) :=
  let key := derive_key password (salt_for uid)
  match fernetDecrypt key note.title, fernetDecrypt key note.content with
  | some dt, some dc => some (dt, dc)
  | _, _ => none

/-- Embedding of Command.encrypt_new_format (migrate_note_encryption.py
lines 52-60): store the recovered title as plaintext and re-encrypt only
the recovered content under the same per-user key. -/
def encrypt_new_format (uid : Nat) (password : String) (note : Note)
    (decrypted_title : String) (decrypted_content : String) : Note :=
  let key := derive_key password (salt_for uid)
  { note with
      title := .plain decrypted_title
      content := fernetEncrypt key decrypted_content }

/-- Outcome line written for one note by the migration loop: MIGRATED
(or WOULD MIGRATE under dry run), SKIPPED, or FAILED. -/
inductive LogEntry where
  | migrated (id : Nat)
  | skipped (id : Nat)
  | failed (id : Nat)
deriving DecidableEq

/-- Embedding of the body of the per-note migration loop of Command.handle
(migrate_note_encryption.py lines 105-159) for one locked note: attempt
the old-format decryption; on success consult the base64 title heuristic
and either migrate the note (under dry run: count it without writing) or
skip it; on
failure leave the note unchanged and record the failure.  Returns the
resulting stored note and the log line. -/
def migrateNote (uid : Nat) (password : String) (dryRun : Bool)
    (note : Note) : Note × LogEntry :=
  match decrypt_old_format uid password note with
  | some (dt, dc) =>
      if titleLooksB64 note.title then
        if dryRun then
          (note, .migrated note.id)
        else
          (encrypt_new_format uid password note dt dc, .migrated note.id)
      else
        (note, .skipped note.id)
  | none => (note, .failed note.id)

/-- Embedding of the migration pass of Command.handle over the stored
notes of one user (migrate_note_encryption.py lines 62-159): the loop
visits exactly the notes flagged is_locked (the queryset filter at lines
67-68) and processes each with the per-note body, continuing past
failures; unlocked notes are untouched and produce no log line.  Returns
the resulting note list and the log, in note order. -/
def runMigration (uid : Nat) (password : String) (dryRun : Bool) :
    List Note → List Note × List LogEntry
  | [] => ([], [])
  | note :: rest =>
      let done := runMigration uid password dryRun rest
      if note.is_locked then
        let step := migrateNote uid password dryRun note
        (step.1 :: done.1, step.2 :: done.2)
      else
        (note :: done.1, done.2)

/-- Count of migrated notes reported by handle (migrated_count). -/
def migratedCount (log : List LogEntry) : Nat :=
  log.countP (fun e => match e with | .migrated _ => true | _ => false)

/-- Count of failed notes reported by handle (failed_count). -/
def failedCount (log : List LogEntry) : Nat :=
  log.countP (fun e => match e with | .failed _ => true | _ => false)

/-- Predicate stating that every token stored in the fields of a note was
produced under the given key; plain fields satisfy it vacuously.  A note
whose locked fields were written by the cipher under password p and user
uid satisfies this with the key derived from p and salt_for uid. -/
def keyedUnder (k : Key) : Txt → Bool
  | .plain _ => true
  | .token k2 _ _ => decide (k2 = k)

/-- Record of a stored NoteVersion (notes/models.py lines 120-128),
restricted to the snapshotted fields: title, content, is_locked, salt. -/
structure NoteVersion where
  title : Txt
  content : Txt
  is_locked : Bool
  salt : String
deriving DecidableEq

/-- Value written into the session under the key note_pk by note_unlock
(notes/views.py lines 371-375): the decrypted content and the submitted
password. -/
structure Slot where
  unlocked_content : String
  password : String
deriving DecidableEq

/-- Server-side state touched by the embedded views: the note under
operation, its version history in creation order (oldest first), and the
session as an association of note ids to unlock slots. -/
structure ServerState where
  note : Note
  versions : List NoteVersion
  session : List (Nat × Slot)
deriving DecidableEq

/-- Snapshot taken by note_edit before overwriting (notes/views.py lines
255-261): the pre-edit title, content, is_locked and salt of the note. -/
def snapshot (n : Note) : NoteVersion :=
  { title := n.title, content := n.content
    is_locked := n.is_locked, salt := n.salt }

/-- POST data of a note_create request (notes/views.py lines 94-102).
Absent string fields arrive as None, which the view treats exactly like
the empty string (truthiness and the final or-empty fallback), so they are
embedded as empty values; is_locked records the result of the comparison
of the raw field with the string on. -/
structure CreateRequest where
  title : Txt
  content : Txt
  encrypted_content : Txt
  is_locked : Bool
  salt : String
  note_type : String
deriving DecidableEq

/-- User-facing message produced by a view. -/
inductive Msg where
  | canvasCannotBeEncrypted
  | contentRequired
  | titleRequired
  | titleAndContentRequired
  | noteCreated
  | noteUpdated
  | notLocked
  | passwordRequired
  | incorrectPassword
deriving DecidableEq

/-- Result of a note_create POST: the created note if any, and the message
shown.  Tags, folder assignment and image upload are excluded
collaborators and are not part of the embedding. -/
structure CreateResult where
  created : Option Note
  msg : Msg
deriving DecidableEq

/-- Embedding of the POST branch of note_create (notes/views.py lines
93-183): pick the encrypted_content field when truthy, else the content
field; reject locked canvas notes; require a title; require content
except for canvas notes; otherwise store the chosen value verbatim (with
the or-empty fallback) and clear is_locked and salt for canvas notes.  No
encryption function is invoked anywhere on this path. -/
def note_create (r : CreateRequest) : CreateResult :=
  let final_content := if r.encrypted_content.truthy then r.encrypted_content
    else r.content
  if r.note_type == "canvas" && r.is_locked then
    { created := none, msg := .canvasCannotBeEncrypted }
  else if r.title.truthy then
    if !final_content.truthy && !(r.note_type == "canvas") then
      { created := none, msg := .contentRequired }
    else
      { created := some
          { id := 0
            title := r.title
            content := if final_content.truthy then final_content
              else .plain ("")
            note_type := r.note_type
            is_locked := if !(r.note_type == "canvas") then r.is_locked
              else false
            salt := if !(r.note_type == "canvas") then r.salt else ("") }
        msg := .noteCreated }
  else
    { created := none, msg := .titleRequired }

/-- POST data of a note_edit request (notes/views.py lines 221-234).
The salt field defaults to the current salt of the note when absent, so it
is kept optional; ajax_update records the comparison of the raw field with
the string true. -/
structure EditRequest where
  title : Txt
  content : Txt
  encrypted_content : Txt
  is_locked : Bool
  salt : Option String
  ajax_update : Bool
deriving DecidableEq

/-- Outcome of a note_edit POST. -/
inductive EditOutcome where
  | jsonSuccess
  | redirectView
  | renderFormError
deriving DecidableEq

/-- Result of a note_edit POST: the outcome and the updated state. -/
structure EditResult where
  outcome : EditOutcome
  state : ServerState
deriving DecidableEq

/-- Embedding of the POST branch of note_edit (notes/views.py lines
220-318): pick the encrypted_content field when truthy, else the content
field; a save requires truthy content, plus a truthy title unless the
request is an AJAX checkbox update; before a non-AJAX save the pre-edit
fields are copied into one new NoteVersion; the note then receives the
chosen content verbatim, the submitted is_locked flag and salt (title only
on non-AJAX requests with a truthy title); the session is not consulted,
written or cleared anywhere on this path, and no encryption function is
invoked.  Tags, folder assignment and image upload are excluded
collaborators and are not part of the embedding. -/
def note_edit (st : ServerState) (r : EditRequest) : EditResult :=
  let final_content := if r.encrypted_content.truthy then r.encrypted_content
    else r.content
  if (r.ajax_update && final_content.truthy)
      || (r.title.truthy && final_content.truthy) then
    let versions2 := if !r.ajax_update then st.versions ++ [snapshot st.note]
      else st.versions
    let title2 := if !r.ajax_update && r.title.truthy then r.title
      else st.note.title
    let note2 : Note :=
      { st.note with
          title := title2
          content := final_content
          is_locked := r.is_locked
          salt := r.salt.getD st.note.salt }
    { outcome := if r.ajax_update then .jsonSuccess else .redirectView
      state := { st with note := note2, versions := versions2 } }
  else
    { outcome := .renderFormError, state := st }

/-- Outcome of a note_unlock request. -/
inductive UnlockOutcome where
  | redirectEdit
  | renderUnlockPage
  | attributeErrorCrash
deriving DecidableEq

/-- Result of a note_unlock request: the outcome, the message shown if
any, and the resulting state. -/
structure UnlockResult where
  outcome : UnlockOutcome
  msg : Option Msg
  state : ServerState
deriving DecidableEq

/-- Embedding of note_unlock (notes/views.py lines 354-386).  When the
note is not locked the view reports that and redirects to note_edit
before anything else happens.  On a POST with a missing or empty password
the view re-renders the unlock page with an error.  On a POST with a
non-empty password the view evaluates note.decrypt_content(password); the
Note model (notes/models.py lines 71-117) defines no method of that name,
so the attribute lookup raises AttributeError and the request aborts with
a server error before the session write at lines 372-375: the success and
incorrect-password branches below that call are unreachable code, and no
state is ever modified by this view. -/
def note_unlock (st : ServerState) (isPost : Bool)
    (password : Option String) : UnlockResult :=
  if !st.note.is_locked then
    { outcome := .redirectEdit, msg := some .notLocked, state := st }
  else if isPost then
    match password with
    | none => { outcome := .renderUnlockPage, msg := some .passwordRequired
                state := st }
    | some pw =>
        if pw == "" then
          { outcome := .renderUnlockPage, msg := some .passwordRequired
            state := st }
        else
          { outcome := .attributeErrorCrash, msg := none, state := st }
  else
    { outcome := .renderUnlockPage, msg := none, state := st }

/-- Iterated application of note_edit: the state reached after serving a
list of edit requests in order. -/
def applyEdits (st : ServerState) : List EditRequest → ServerState
  | [] => st
  | r :: rs => applyEdits (note_edit st r).state rs

/-- Pre-edit snapshots taken along a sequence of edit requests: for each
request, the snapshot of the note as it stood when that request was
served. -/
def snapshotTrace (st : ServerState) : List EditRequest → List NoteVersion
  | [] => []
  | r :: rs => snapshot st.note :: snapshotTrace (note_edit st r).state rs

/-
Helper lemmas shared by several claim proofs.
-/

/-- Decryption under a key with a different password than the one a token
was produced under fails. -/
theorem fernetDecrypt_ne_key (k k2 : Key) (payload : String) (f : Bool)
    (h : k2 ≠ k) : fernetDecrypt k (.token k2 payload f) = none := by
  simp [fernetDecrypt, h]

/-- Old-format decryption fails on every note whose stored title is keyed
under the key of a password other than the submitted one (a plain title
fails outright; a token under a different key fails authentication). -/
theorem decrypt_old_format_wrong_key (uid : Nat) (p pw : String)
    (note : Note)
    (ht : keyedUnder (derive_key p (salt_for uid)) note.title = true)
    (hp : p ≠ pw) :
    decrypt_old_format uid pw note = none := by
  unfold decrypt_old_format
  cases hT : note.title with
  | plain s => simp [fernetDecrypt]
  | token k2 payload f =>
      have hk2 : k2 = derive_key p (salt_for uid) := by
        have := ht
        rw [hT] at this
        simpa [keyedUnder] using this
      have hne : k2 ≠ derive_key pw (salt_for uid) := by
        rw [hk2]
        simp [derive_key, Key.mk.injEq]
        intro h
        exact hp h
      simp [fernetDecrypt, hne]

/-
Claim theorems.
-/

/-- C1: for every user id u, non-empty password p and plaintext t
(including the empty string and non-ASCII text), decrypting the
encryption of t under p and the deterministic 16-byte salt of u with the
same p and u yields exactly t. -/
theorem C1_encrypt_decrypt_roundtrip (t p : String) (u : Nat)
    (_hp : p ≠ "") : decrypt (encrypt t p u) p u = some t := by
  simp [decrypt, encrypt, fernetEncrypt, fernetDecrypt]

/-- Witness for C1 at concrete inputs: the empty plaintext and a
non-ASCII plaintext both round-trip for user 42 under password pw. -/
theorem C1_encrypt_decrypt_roundtrip_witness :
    ("pw" : String) ≠ ""
      ∧ decrypt (encrypt ("") "pw" 42) "pw" 42 = some ("")
      ∧ decrypt (encrypt ("Héllo ✓ milk") "pw" 42) "pw" 42
          = some ("Héllo ✓ milk") :=
  ⟨by decide, C1_encrypt_decrypt_roundtrip ("") "pw" 42 (by decide),
    C1_encrypt_decrypt_roundtrip ("Héllo ✓ milk") "pw" 42 (by decide)⟩

/-- C2: for every plaintext t, user id u and distinct passwords p1 and
p2, decrypting the encryption of t under p1 with p2 never returns any
plaintext: the failure is normalized to the single failed outcome none. -/
theorem C2_wrong_password_decrypt_fails (t p1 p2 : String) (u : Nat)
    (h : p1 ≠ p2) : decrypt (encrypt t p1 u) p2 u = none := by
  apply fernetDecrypt_ne_key
  simp [derive_key, Key.mk.injEq]
  intro hh
  exact h hh

/-- Witness for C2 at concrete inputs: a note of user 42 encrypted under
the password correct-horse does not decrypt under wrong-pw. -/
theorem C2_wrong_password_decrypt_fails_witness :
    ("correct-horse" : String) ≠ "wrong-pw"
      ∧ decrypt (encrypt ("Buy milk") "correct-horse" 42) "wrong-pw" 42
          = none :=
  ⟨by decide,
    C2_wrong_password_decrypt_fails ("Buy milk") "correct-horse" "wrong-pw"
      42 (by decide)⟩

/-- C5 counterexample: the claim quantifies over every pair of distinct
user ids, but the salt computation right-pads the decimal digits with the
character 0 to 16 bytes, so users 1 and 10 receive the same salt and a
ciphertext of user 1 decrypts under the salt of user 10 with the same
password. -/
theorem C5_counterexample_salt_collision :
    (1 : Nat) ≠ 10
      ∧ salt_for 1 = salt_for 10
      ∧ decrypt (encrypt ("hi") "pw" 1) "pw" 10 = some ("hi") := by
  refine ⟨by decide, by decide, ?_⟩
  decide

/-- C5 amended: ciphertext produced under the salt of user u1 fails to
decrypt under the salt of user u2 with the same password whenever the two
16-byte padded salts differ (distinct ids alone do not guarantee this:
right-padding the decimal digits with the character 0 makes the salts of
ids 1 and 10 collide). -/
theorem C5_amended_distinct_salts_reject (t p : String) (u1 u2 : Nat)
    (h : salt_for u1 ≠ salt_for u2) :
    decrypt (encrypt t p u1) p u2 = none := by
  apply fernetDecrypt_ne_key
  simp [derive_key, Key.mk.injEq]
  intro hh
  exact h hh

/-- Witness for the amended C5 at concrete inputs: users 1 and 2 have
distinct salts and cross-user decryption fails. -/
theorem C5_amended_distinct_salts_reject_witness :
    salt_for 1 ≠ salt_for 2
      ∧ decrypt (encrypt ("hi") "pw" 1) "pw" 2 = none :=
  ⟨by decide, C5_amended_distinct_salts_reject ("hi") "pw" 1 2 (by decide)⟩

/-
Concrete fixtures used by closed theorems.
-/

/-- Sample locked markdown note of user 7, encrypted under password pw. -/
def lockedNote : Note :=
  { id := 5
    title := .plain ("Secret list")
    content := .token (derive_key ("pw") (salt_for 7)) "old body" true
    note_type := "markdown"
    is_locked := true
    salt := "" }

/-- Sample state holding the locked note, no versions, empty session. -/
def lockedState : ServerState :=
  { note := lockedNote, versions := [], session := [] }

/-- Sample state whose session holds a populated unlock slot for the
locked note, as the slot would stand after the session write of
note_unlock. -/
def slotState : ServerState :=
  { note := lockedNote
    versions := []
    session := [(5, { unlocked_content := "old body", password := "pw" })] }

/-- C3 as a code bug, evaluated at the failing input: submitting any
password for a locked note makes note_unlock evaluate
note.decrypt_content(password), a method the Note model does not define,
so the request aborts with AttributeError instead of reporting an
incorrect password; the incorrect-password branch of the view is
unreachable. -/
theorem C3_unlock_post_raises_attribute_error :
    note_unlock lockedState true (some ("wrong-pw"))
      = { outcome := .attributeErrorCrash, msg := none
          state := lockedState }
      ∧ lockedState.note.is_locked = true := by
  constructor
  · decide
  · decide

/-- C10: a request to note_unlock for a note whose is_locked flag is
false returns before anything else happens: the user is told the note is
not locked and redirected to the edit view, the state (note, versions and
session alike) is untouched, and the decrypt call below the early return
is never reached. -/
theorem C10_unlock_not_locked_noop (st : ServerState) (isPost : Bool)
    (password : Option String) (h : st.note.is_locked = false) :
    note_unlock st isPost password
      = { outcome := .redirectEdit, msg := some .notLocked, state := st } := by
  simp [note_unlock, h]

/-- Witness for C10 at a concrete input: unlocking an unlocked note is a
no-op that redirects to the edit view. -/
theorem C10_unlock_not_locked_noop_witness :
    ({ note := { lockedNote with is_locked := false }, versions := []
       session := [] } : ServerState).note.is_locked = false
      ∧ note_unlock
          { note := { lockedNote with is_locked := false }, versions := []
            session := [] } true (some ("pw"))
        = { outcome := .redirectEdit, msg := some .notLocked
            state :=
              { note := { lockedNote with is_locked := false }
                versions := [], session := [] } } :=
  ⟨by decide,
    C10_unlock_not_locked_noop
      { note := { lockedNote with is_locked := false }, versions := []
        session := [] } true (some ("pw")) (by decide)⟩

/-- C4 counterexample: with the correct password the unlock of a locked
note crashes (so the slot write is unreachable), and independently, with
a populated slot in the session an edit-and-save stores the
client-supplied plain content verbatim instead of an encryption under the
cached password, and the save leaves the slot in the session instead of
clearing it. -/
theorem C4_counterexample_slot_unused :
    (note_unlock lockedState true (some ("pw"))).outcome
        = .attributeErrorCrash
      ∧ (note_edit slotState
            { title := .plain ("Secret list"), content := .plain ("new body")
              encrypted_content := .plain (""), is_locked := true
              salt := none, ajax_update := false }).state.note.content
          = .plain ("new body")
      ∧ (note_edit slotState
            { title := .plain ("Secret list"), content := .plain ("new body")
              encrypted_content := .plain (""), is_locked := true
              salt := none, ajax_update := false }).state.note.content
          ≠ encrypt ("new body") "pw" 7
      ∧ (note_edit slotState
            { title := .plain ("Secret list"), content := .plain ("new body")
              encrypted_content := .plain (""), is_locked := true
              salt := none, ajax_update := false }).state.session
          = slotState.session := by
  refine ⟨by decide, by decide, by decide, by decide⟩

/-- C4 amended: the slot write in note_unlock is unreachable, so a
successful unlock never happens (every password submission on a locked
note crashes with AttributeError and leaves the state unchanged); and
whatever slot the session holds for the note, a valid save through
note_edit stores the client-supplied content field verbatim, performs no
server-side encryption with the cached password, and leaves the session
(the slot included) unchanged rather than clearing it. -/
theorem C4_amended_save_ignores_slot :
    (∀ (st : ServerState) (pw : String), st.note.is_locked = true →
        pw ≠ "" →
        note_unlock st true (some pw)
          = { outcome := .attributeErrorCrash, msg := none, state := st })
      ∧ (∀ (st : ServerState) (r : EditRequest) (slot : Slot),
          st.session.lookup st.note.id = some slot →
          ((r.ajax_update
                && (if r.encrypted_content.truthy then r.encrypted_content
                    else r.content).truthy)
              || (r.title.truthy
                && (if r.encrypted_content.truthy then r.encrypted_content
                    else r.content).truthy)) = true →
          (note_edit st r).state.note.content
              = (if r.encrypted_content.truthy then r.encrypted_content
                  else r.content)
            ∧ (note_edit st r).state.session = st.session) := by
  constructor
  · intro st pw hl hpw
    have hpw2 : (pw == "") = false := by
      simpa using hpw
    simp [note_unlock, hl, hpw2]
  · intro st r slot _hslot hvalid
    simp [note_edit, hvalid]

/-- Witness for the amended C4 at concrete inputs: the unlock crash and
the verbatim save with an untouched slot. -/
theorem C4_amended_save_ignores_slot_witness :
    (lockedState.note.is_locked = true ∧ ("pw" : String) ≠ ""
        ∧ note_unlock lockedState true (some ("pw"))
          = { outcome := .attributeErrorCrash, msg := none
              state := lockedState })
      ∧ (slotState.session.lookup slotState.note.id
            = some { unlocked_content := "old body", password := "pw" }
          ∧ (note_edit slotState
                { title := .plain ("Secret list")
                  content := .plain ("fresh body")
                  encrypted_content := .plain (""), is_locked := true
                  salt := none, ajax_update := false }).state.note.content
              = .plain ("fresh body")
          ∧ (note_edit slotState
                { title := .plain ("Secret list")
                  content := .plain ("fresh body")
                  encrypted_content := .plain (""), is_locked := true
                  salt := none, ajax_update := false }).state.session
              = slotState.session) :=
  ⟨⟨by decide, by decide,
      C4_amended_save_ignores_slot.1 lockedState ("pw") (by decide)
        (by decide)⟩,
    ⟨by decide,
      (C4_amended_save_ignores_slot.2 slotState
          { title := .plain ("Secret list"), content := .plain ("fresh body")
            encrypted_content := .plain (""), is_locked := true
            salt := none, ajax_update := false }
          { unlocked_content := "old body", password := "pw" } (by decide)
          (by decide)).1,
      (C4_amended_save_ignores_slot.2 slotState
          { title := .plain ("Secret list"), content := .plain ("fresh body")
            encrypted_content := .plain (""), is_locked := true
            salt := none, ajax_update := false }
          { unlocked_content := "old body", password := "pw" } (by decide)
          (by decide)).2⟩⟩

/-- Helper: a stored text value that is falsy is the empty plain string. -/
theorem Txt.eq_plain_empty_of_not_truthy (c : Txt) (h : c.truthy = false) :
    c = .plain ("") := by
  cases c with
  | plain s =>
      simp [Txt.truthy] at h
      simp [h]
  | token k payload f => simp [Txt.truthy] at h

/-- Helper: a valid non-AJAX save through note_edit appends exactly one
version, the pre-edit snapshot, to the version list. -/
theorem note_edit_nonajax_version_append (st : ServerState)
    (r : EditRequest) (hajax : r.ajax_update = false)
    (hv : (r.title.truthy
        && (if r.encrypted_content.truthy then r.encrypted_content
            else r.content).truthy) = true) :
    (note_edit st r).state.versions = st.versions ++ [snapshot st.note]
      ∧ (note_edit st r).outcome = .redirectView := by
  simp [note_edit, hajax, hv]

/-- C6 counterexample: an AJAX checkbox-update request is a save of an
edit (the note record is updated and the view answers with success), yet
it creates no NoteVersion, so not every save produces a version. -/
theorem C6_counterexample_ajax_save_no_version :
    (note_edit lockedState
        { title := .plain (""), content := .plain ("done")
          encrypted_content := .plain (""), is_locked := false
          salt := none, ajax_update := true }).state.versions
        = lockedState.versions
      ∧ (note_edit lockedState
            { title := .plain (""), content := .plain ("done")
              encrypted_content := .plain (""), is_locked := false
              salt := none, ajax_update := true }).state.note.content
          = .plain ("done")
      ∧ (note_edit lockedState
            { title := .plain (""), content := .plain ("done")
              encrypted_content := .plain (""), is_locked := false
              salt := none, ajax_update := true }).outcome
          = .jsonSuccess := by
  refine ⟨by decide, by decide, by decide⟩

/-- C6 amended: every valid NON-AJAX save of an edit creates exactly one
new NoteVersion holding the pre-edit title, content and lock flag,
appended before the new values are written, so N such edits produce
exactly N versions in oldest-to-newest order; AJAX checkbox-update saves
write the note without creating a version. -/
theorem C6_amended_nonajax_saves_snapshot :
    (∀ (st : ServerState) (r : EditRequest), r.ajax_update = false →
        (r.title.truthy
            && (if r.encrypted_content.truthy then r.encrypted_content
                else r.content).truthy) = true →
        (note_edit st r).state.versions = st.versions ++ [snapshot st.note])
      ∧ (∀ (st : ServerState) (rs : List EditRequest),
          (∀ r ∈ rs, r.ajax_update = false
              ∧ (r.title.truthy
                  && (if r.encrypted_content.truthy then r.encrypted_content
                      else r.content).truthy) = true) →
          (applyEdits st rs).versions = st.versions ++ snapshotTrace st rs
            ∧ (snapshotTrace st rs).length = rs.length) := by
  constructor
  · intro st r hajax hv
    exact (note_edit_nonajax_version_append st r hajax hv).1
  · intro st rs
    induction rs generalizing st with
    | nil => intro _; simp [applyEdits, snapshotTrace]
    | cons r rest ih =>
        intro h
        have hr := h r (by simp)
        have hrest : ∀ q ∈ rest, q.ajax_update = false
            ∧ (q.title.truthy
                && (if q.encrypted_content.truthy then q.encrypted_content
                    else q.content).truthy) = true := by
          intro q hq
          exact h q (by simp [hq])
        have hstep :=
          note_edit_nonajax_version_append st r hr.1 hr.2
        have hih := ih (note_edit st r).state hrest
        constructor
        · calc (applyEdits st (r :: rest)).versions
              = (applyEdits (note_edit st r).state rest).versions := by
                simp [applyEdits]
            _ = (note_edit st r).state.versions
                  ++ snapshotTrace (note_edit st r).state rest := hih.1
            _ = (st.versions ++ [snapshot st.note])
                  ++ snapshotTrace (note_edit st r).state rest := by
                rw [hstep.1]
            _ = st.versions ++ snapshotTrace st (r :: rest) := by
                simp [snapshotTrace, List.append_assoc]
        · simp [snapshotTrace, hih.2]

/-- Sample non-AJAX valid edit request writing plain body b1. -/
def editReq1 : EditRequest :=
  { title := .plain ("T1"), content := .plain ("b1")
    encrypted_content := .plain (""), is_locked := false
    salt := none, ajax_update := false }

/-- Sample non-AJAX valid edit request writing plain body b2. -/
def editReq2 : EditRequest :=
  { title := .plain ("T2"), content := .plain ("b2")
    encrypted_content := .plain (""), is_locked := false
    salt := none, ajax_update := false }

/-- Witness for the amended C6 at concrete inputs: two successive
non-AJAX edits of a note append exactly two snapshots, oldest first. -/
theorem C6_amended_nonajax_saves_snapshot_witness :
    (∀ r ∈ [editReq1, editReq2],
        r.ajax_update = false
          ∧ (r.title.truthy
              && (if r.encrypted_content.truthy then r.encrypted_content
                  else r.content).truthy) = true)
      ∧ ((applyEdits lockedState [editReq1, editReq2]).versions
          = lockedState.versions
              ++ snapshotTrace lockedState [editReq1, editReq2]
          ∧ (snapshotTrace lockedState [editReq1, editReq2]).length = 2) :=
  ⟨by decide,
    C6_amended_nonajax_saves_snapshot.2 lockedState [editReq1, editReq2]
      (by decide)⟩

/-- C9: whenever a note_create or note_edit request results in a save,
the stored content is the client-supplied encrypted_content field when
that field is a non-empty string and the plain content field otherwise,
verbatim; no encryption function occurs anywhere on either path. -/
theorem C9_content_stored_verbatim :
    (∀ (r : CreateRequest) (n : Note), (note_create r).created = some n →
        n.content = (if r.encrypted_content.truthy then r.encrypted_content
          else r.content))
      ∧ (∀ (st : ServerState) (r : EditRequest),
          ((r.ajax_update
                && (if r.encrypted_content.truthy then r.encrypted_content
                    else r.content).truthy)
              || (r.title.truthy
                && (if r.encrypted_content.truthy then r.encrypted_content
                    else r.content).truthy)) = true →
          (note_edit st r).state.note.content
            = (if r.encrypted_content.truthy then r.encrypted_content
                else r.content)) := by
  constructor
  · intro r n h
    by_cases h1 : (r.note_type == "canvas" && r.is_locked) = true
    · simp [note_create, h1] at h
    · by_cases h2 : r.title.truthy = true
      · by_cases h3 : (if r.encrypted_content.truthy then r.encrypted_content
            else r.content).truthy = true
        · simp [note_create, h1, h2, h3] at h
          subst h
          simp
        · by_cases h4 : (r.note_type == "canvas") = true
          · have h5 : r.is_locked = false := by
              rcases Bool.eq_false_or_eq_true r.is_locked with hT | hF
              · exact absurd (by simp [h4, hT]) h1
              · exact hF
            simp [note_create, h1, h2, h3, h4, h5] at h
            subst h
            have he : r.encrypted_content.truthy = false := by
              by_cases h6 : r.encrypted_content.truthy = true
              · exact absurd (by simp [h6]) h3
              · simpa using h6
            have hc : r.content = Txt.plain ("") := by
              apply Txt.eq_plain_empty_of_not_truthy
              by_cases h6 : r.content.truthy = true
              · exact absurd (by simp [he, h6]) h3
              · simpa using h6
            simp [he, hc]
          · simp [note_create, h1, h2, h3, h4] at h
      · simp [note_create, h1, h2] at h
  · intro st r hvalid
    simp [note_edit, hvalid]

/-- Witness for C9 at concrete inputs: a create whose encrypted_content
field is a non-empty token stores that token; an edit whose
encrypted_content field is empty stores the plain content field. -/
theorem C9_content_stored_verbatim_witness :
    (note_create
        { title := .plain ("T")
          content := .plain ("ignored")
          encrypted_content := .token (derive_key ("p") (salt_for 1)) "x" true
          is_locked := true, salt := "s"
          note_type := "markdown" }).created
        = some
          { id := 0, title := .plain ("T")
            content := .token (derive_key ("p") (salt_for 1)) "x" true
            note_type := "markdown", is_locked := true, salt := "s" }
      ∧ ({ id := 0, title := .plain ("T")
           content := .token (derive_key ("p") (salt_for 1)) "x" true
           note_type := "markdown", is_locked := true
           salt := "s" } : Note).content
        = (if (Txt.token (derive_key ("p") (salt_for 1)) "x" true).truthy
            then .token (derive_key ("p") (salt_for 1)) "x" true
            else .plain ("ignored"))
      ∧ (note_edit lockedState
            { title := .plain ("T"), content := .plain ("direct")
              encrypted_content := .plain (""), is_locked := false
              salt := none, ajax_update := false }).state.note.content
        = (if (Txt.plain ("")).truthy then .plain ("") else .plain ("direct")) :=
  ⟨by decide,
    C9_content_stored_verbatim.1
      { title := .plain ("T")
        content := .plain ("ignored")
        encrypted_content := .token (derive_key ("p") (salt_for 1)) "x" true
        is_locked := true, salt := "s"
        note_type := "markdown" }
      { id := 0, title := .plain ("T")
        content := .token (derive_key ("p") (salt_for 1)) "x" true
        note_type := "markdown", is_locked := true, salt := "s" }
      (by decide),
    C9_content_stored_verbatim.2 lockedState
      { title := .plain ("T"), content := .plain ("direct")
        encrypted_content := .plain (""), is_locked := false
        salt := none, ajax_update := false } (by decide)⟩

/-
Migration fixtures and claims.
-/

/-- Sample old-format note of user 7: title and content both tokens under
the password right, the serialized title passing the standard base64
check. -/
def oldNoteA : Note :=
  { id := 1
    title := .token (derive_key ("right") (salt_for 7)) "Shopping" true
    content := .token (derive_key ("right") (salt_for 7)) "eggs" true
    note_type := "markdown", is_locked := true, salt := "" }

/-- Sample unlocked plain note of user 7. -/
def plainNoteB : Note :=
  { id := 2, title := .plain ("Diary"), content := .plain ("dear")
    note_type := "markdown", is_locked := false, salt := "" }

/-- Sample old-format note of user 7 under password pw whose serialized
title passes the standard base64 check. -/
def oldGoodNote : Note :=
  { id := 3
    title := .token (derive_key ("pw") (salt_for 7)) "Shopping" true
    content := .token (derive_key ("pw") (salt_for 7)) "eggs" true
    note_type := "markdown", is_locked := true, salt := "" }

/-- Sample old-format note of user 7 under password pw whose serialized
title does NOT decode under standard base64 (urlsafe characters in the
token make its count of foreign characters break the padding check). -/
def oldBadB64Note : Note :=
  { id := 11
    title := .token (derive_key ("pw") (salt_for 7)) "Plans" false
    content := .token (derive_key ("pw") (salt_for 7)) "scheme" true
    note_type := "markdown", is_locked := true, salt := "" }

/-- Sample note of user 7 already in the new format: plaintext title,
content a token under password pw. -/
def newFormatNote : Note :=
  { id := 9
    title := .plain ("Groceries")
    content := .token (derive_key ("pw") (salt_for 7)) "milk" true
    note_type := "markdown", is_locked := true, salt := "" }

/-- Helper: with a password different from the one the stored tokens were
produced under, the migration pass leaves every note unchanged and logs
one failure per locked note, in order. -/
theorem runMigration_wrong_key (uid : Nat) (p pw : String) (dry : Bool)
    (notes : List Note)
    (henc : ∀ n ∈ notes,
        keyedUnder (derive_key p (salt_for uid)) n.title = true
          ∧ keyedUnder (derive_key p (salt_for uid)) n.content = true)
    (hp : p ≠ pw) :
    runMigration uid pw dry notes
      = (notes, (notes.filter (fun n => n.is_locked)).map
          (fun n => LogEntry.failed n.id)) := by
  induction notes with
  | nil => simp [runMigration]
  | cons n rest ih =>
      have hn := henc n (by simp)
      have hrest : ∀ m ∈ rest,
          keyedUnder (derive_key p (salt_for uid)) m.title = true
            ∧ keyedUnder (derive_key p (salt_for uid)) m.content = true :=
        fun m hm => henc m (by simp [hm])
      have hfail : decrypt_old_format uid pw n = none :=
        decrypt_old_format_wrong_key uid p pw n hn.1 hp
      by_cases hl : n.is_locked = true
      · simp [runMigration, hl, migrateNote, hfail, ih hrest,
          List.filter_cons]
      · have hl2 : n.is_locked = false := by simpa using hl
        simp [runMigration, hl2, ih hrest, List.filter_cons]

/-- C7: running the migration for a user with the wrong password writes
nothing to any note and migrates none: every locked note fails
decryption, the failure is logged per note and counted, and the batch
continues over all remaining notes instead of aborting. -/
theorem C7_wrong_password_migration_no_writes (uid : Nat) (p pw : String)
    (dry : Bool) (notes : List Note)
    (henc : ∀ n ∈ notes,
        keyedUnder (derive_key p (salt_for uid)) n.title = true
          ∧ keyedUnder (derive_key p (salt_for uid)) n.content = true)
    (hp : p ≠ pw) :
    (runMigration uid pw dry notes).1 = notes
      ∧ (runMigration uid pw dry notes).2
          = (notes.filter (fun n => n.is_locked)).map
              (fun n => LogEntry.failed n.id)
      ∧ migratedCount (runMigration uid pw dry notes).2 = 0
      ∧ failedCount (runMigration uid pw dry notes).2
          = (notes.filter (fun n => n.is_locked)).length := by
  have h := runMigration_wrong_key uid p pw dry notes henc hp
  rw [h]
  refine ⟨rfl, rfl, ?_, ?_⟩
  · simp [migratedCount, List.countP_map]
  · simp [failedCount, List.countP_map]

/-- Witness for C7 at concrete inputs: one locked old-format note and one
unlocked note, migrated with the wrong password: nothing changes, one
failure is logged and counted. -/
theorem C7_wrong_password_migration_no_writes_witness :
    (∀ n ∈ [oldNoteA, plainNoteB],
        keyedUnder (derive_key ("right") (salt_for 7)) n.title = true
          ∧ keyedUnder (derive_key ("right") (salt_for 7)) n.content = true)
      ∧ ("right" : String) ≠ "wrong"
      ∧ ((runMigration 7 ("wrong") false [oldNoteA, plainNoteB]).1
            = [oldNoteA, plainNoteB]
          ∧ (runMigration 7 ("wrong") false [oldNoteA, plainNoteB]).2
              = ([oldNoteA, plainNoteB].filter (fun n => n.is_locked)).map
                  (fun n => LogEntry.failed n.id)
          ∧ migratedCount
              (runMigration 7 ("wrong") false [oldNoteA, plainNoteB]).2 = 0
          ∧ failedCount
              (runMigration 7 ("wrong") false [oldNoteA, plainNoteB]).2
            = ([oldNoteA, plainNoteB].filter (fun n => n.is_locked)).length) :=
  ⟨by decide, by decide,
    C7_wrong_password_migration_no_writes 7 ("right") "wrong" false
      [oldNoteA, plainNoteB] (by decide) (by decide)⟩

/-- C8 counterexample: with the correct password, a note already in the
new format (plaintext title) is NOT detected by the base64 title
heuristic and skipped: its plaintext title fails the old-format
decryption, so the note lands in the failure branch; and an old-format
note whose serialized title does not decode under standard base64 is
skipped unmigrated instead of being converted. -/
theorem C8_counterexample_new_format_reported_failed :
    migrateNote 7 ("pw") false newFormatNote
        = (newFormatNote, .failed 9)
      ∧ migrateNote 7 ("pw") false oldBadB64Note
          = (oldBadB64Note, .skipped 11) := by
  refine ⟨by decide, by decide⟩

/-- C8 amended: given the correct password, an old-format note (title and
content both tokens under the per-user key) is converted to the new
format (plaintext title, content re-encrypted) exactly when its stored
title passes the standard base64 check, and is skipped unchanged when it
does not; a note already in the new format (plaintext title) fails the
old-format decryption and is reported as a failure — it is left
unchanged, but it is not detected by the title heuristic. -/
theorem C8_amended_migration_behavior :
    (∀ (uid : Nat) (p : String) (n : Note) (k : Key) (tT cC : String)
        (fT fC : Bool), k = derive_key p (salt_for uid) →
        n.title = .token k tT fT → n.content = .token k cC fC →
        migrateNote uid p false n
          = (if fT then
              ({ n with
                  title := .plain tT
                  content := fernetEncrypt k cC }, LogEntry.migrated n.id)
            else (n, LogEntry.skipped n.id)))
      ∧ (∀ (uid : Nat) (p : String) (n : Note) (s : String),
          n.title = .plain s →
          migrateNote uid p false n = (n, LogEntry.failed n.id)) := by
  constructor
  · intro uid p n k tT cC fT fC hk ht hc
    subst hk
    cases fT with
    | false =>
        simp [migrateNote, decrypt_old_format, ht, hc, fernetDecrypt,
          titleLooksB64]
    | true =>
        simp [migrateNote, decrypt_old_format, ht, hc, fernetDecrypt,
          titleLooksB64, encrypt_new_format]
  · intro uid p n s ht
    simp [migrateNote, decrypt_old_format, ht, fernetDecrypt]

/-- Witness for the amended C8 at concrete inputs: an old-format note
with a base64-decodable title is migrated, and a new-format note is
reported failed and left unchanged. -/
theorem C8_amended_migration_behavior_witness :
    (oldGoodNote.title
        = Txt.token (derive_key ("pw") (salt_for 7)) "Shopping" true
      ∧ migrateNote 7 ("pw") false oldGoodNote
          = (if true then
              ({ oldGoodNote with
                  title := .plain ("Shopping")
                  content :=
                    fernetEncrypt (derive_key ("pw") (salt_for 7))
                      "eggs" }, LogEntry.migrated oldGoodNote.id)
            else (oldGoodNote, LogEntry.skipped oldGoodNote.id)))
      ∧ (newFormatNote.title = Txt.plain ("Groceries")
        ∧ migrateNote 7 ("pw") false newFormatNote
            = (newFormatNote, LogEntry.failed newFormatNote.id)) :=
  ⟨⟨rfl,
      C8_amended_migration_behavior.1 7 ("pw") oldGoodNote
        (derive_key ("pw") (salt_for 7)) "Shopping" "eggs" true true rfl rfl
        rfl⟩,
    ⟨rfl,
      C8_amended_migration_behavior.2 7 ("pw") newFormatNote ("Groceries")
        rfl⟩⟩

end NotesApp
